import Mathlib

set_option maxRecDepth 100000

/-!
Verification development for the KINETIC-OS gesture-control core.

The Python source is shallowly embedded: Python floats are modelled as exact
rationals (`ℚ`), Python `int(...)` truncation toward zero as `truncQ`,
mutation of `self` as explicit state passing, and fallible operations
(list indexing and dictionary lookup, which raise in Python) as `Option`.
The `math.sqrt` / `np.sqrt` calls of the source appear only under strict
`<` comparisons between non-negative values; the executable embedding uses
the equivalent squared comparisons, and the theorems `is_click_iff_dist`
and `is_finger_curled_pt_iff_dist` prove the equivalence with the literal
real-square-root formulation.
-/

/-! ## Configuration constants (src/config.py) -/

def SMOOTHING_FACTOR : ℚ := 6

def ACTIVE_REGION_X_START : ℚ := 2/10

def ACTIVE_REGION_X_END : ℚ := 8/10

def ACTIVE_REGION_Y_START : ℚ := 2/10

def ACTIVE_REGION_Y_END : ℚ := 8/10

def CLICK_THRESHOLD : ℚ := 5/100

def SCROLL_SENSITIVITY : ℚ := 10

def FAILSAFE_X_END : ℤ := 100

def FAILSAFE_Y_END : ℤ := 100

def CLICK_DEBOUNCE_TIME : ℚ := 3/10

def SCROLL_DEBOUNCE_TIME : ℚ := 5/100

def MODE_ACTIVE : String := "ACTIVE"

def MODE_SCROLL : String := "SCROLL"

def MODE_IDLE : String := "IDLE"

/-! ## Data model -/

/-- One landmark point: a Python `(x, y, z)` tuple of normalized coordinates. -/
structure Point3 where
  x : ℚ
  y : ℚ
  z : ℚ
deriving DecidableEq, Repr

/-- `HandLandmarks` (src/hand_engine.py): the landmark list plus handedness.
The `raw_landmarks` field of the source (an opaque MediaPipe object used only
for drawing by the HUD) is omitted, as it never feeds back into the core. -/
structure HandLandmarks where
  landmarks : List Point3
  handedness : String
deriving DecidableEq, Repr

/-- `CursorMath` instance state (src/cursor_math.py `__init__`): screen
dimensions plus the three optional retained scalars.  The active-region
fields of the source are copies of the config constants, referenced here
directly. -/
structure CursorMath where
  screen_width : ℤ
  screen_height : ℤ
  prev_x : Option ℚ
  prev_y : Option ℚ
  prev_scroll_y : Option ℚ
deriving DecidableEq, Repr

/-- Fresh `CursorMath` as built by `__init__`. -/
def mkCursorMath (screen_width screen_height : ℤ) : CursorMath :=
  { screen_width := screen_width
    screen_height := screen_height
    prev_x := none
    prev_y := none
    prev_scroll_y := none }

/-- Python `int(q)`: truncation toward zero. -/
def truncQ (q : ℚ) : ℤ :=
  if 0 ≤ q then ⌊q⌋ else ⌈q⌉

/-! ## CursorMath operations (src/cursor_math.py) -/

/-- `smooth_position` (lines 48-77): EMA smoothing; first call after a reset
seeds the filter state with the raw values and returns them unchanged. -/
def smooth_position (cm : CursorMath) (raw_x raw_y : ℚ) : CursorMath × ℚ × ℚ :=
  if cm.prev_x = none ∨ cm.prev_y = none then
    ({ cm with prev_x := some raw_x, prev_y := some raw_y }, raw_x, raw_y)
  else
    let px := cm.prev_x.getD 0
    let py := cm.prev_y.getD 0
    let smoothed_x := px + (raw_x - px) / SMOOTHING_FACTOR
    let smoothed_y := py + (raw_y - py) / SMOOTHING_FACTOR
    ({ cm with prev_x := some smoothed_x, prev_y := some smoothed_y },
     smoothed_x, smoothed_y)

/-- `map_to_screen` (lines 79-115): clamp to the active region, rescale to
[0,1], mirror x, scale to pixels with `int` truncation, clamp to screen. -/
def map_to_screen (cm : CursorMath) (norm_x norm_y : ℚ) : ℤ × ℤ :=
  let clamped_x := max ACTIVE_REGION_X_START (min ACTIVE_REGION_X_END norm_x)
  let clamped_y := max ACTIVE_REGION_Y_START (min ACTIVE_REGION_Y_END norm_y)
  let active_width := ACTIVE_REGION_X_END - ACTIVE_REGION_X_START
  let active_height := ACTIVE_REGION_Y_END - ACTIVE_REGION_Y_START
  let mapped_x := (clamped_x - ACTIVE_REGION_X_START) / active_width
  let mapped_y := (clamped_y - ACTIVE_REGION_Y_START) / active_height
  let mapped_x := 1 - mapped_x
  let screen_x := truncQ (mapped_x * (cm.screen_width : ℚ))
  let screen_y := truncQ (mapped_y * (cm.screen_height : ℚ))
  let screen_x := max 0 (min (cm.screen_width - 1) screen_x)
  let screen_y := max 0 (min (cm.screen_height - 1) screen_y)
  (screen_x, screen_y)

/-- Planar squared distance `dx*dx + dy*dy`; the source takes `sqrt` of this
and compares the root with `<`. -/
def dist2 (point1 point2 : Point3) : ℚ :=
  (point1.x - point2.x) * (point1.x - point2.x) +
    (point1.y - point2.y) * (point1.y - point2.y)

/-- `euclidean_distance` (lines 117-136), literally: the planar (x, y only)
Euclidean distance, over ℝ. -/
noncomputable def euclidean_distance (point1 point2 : Point3) : ℝ :=
  let dx : ℝ := (point1.x : ℝ) - (point2.x : ℝ)
  let dy : ℝ := (point1.y : ℝ) - (point2.y : ℝ)
  Real.sqrt (dx * dx + dy * dy)

/-- `is_click` (lines 138-157): source compares
`euclidean_distance < CLICK_THRESHOLD`; embedded as the equivalent squared
comparison (equivalence proved in `is_click_iff_dist`). -/
def is_click (thumb_tip finger_tip : Point3) : Bool :=
  decide (dist2 thumb_tip finger_tip < CLICK_THRESHOLD * CLICK_THRESHOLD)

/-- `calculate_scroll_delta` (lines 159-177): first call after a reset stores
the baseline and returns 0; later calls return the truncated scaled
inter-frame delta and advance the reference. -/
def calculate_scroll_delta (cm : CursorMath) (current_y : ℚ) : CursorMath × ℤ :=
  match cm.prev_scroll_y with
  | none => ({ cm with prev_scroll_y := some current_y }, 0)
  | some ref =>
    let delta := (current_y - ref) * SCROLL_SENSITIVITY * 100
    ({ cm with prev_scroll_y := some current_y }, truncQ delta)

/-- `reset_scroll_reference` (lines 179-181). -/
def reset_scroll_reference (cm : CursorMath) : CursorMath :=
  { cm with prev_scroll_y := none }

/-- `is_in_failsafe_region` (lines 183-195). -/
def is_in_failsafe_region (_cm : CursorMath) (screen_x screen_y : ℤ) : Bool :=
  decide (screen_x < FAILSAFE_X_END) && decide (screen_y < FAILSAFE_Y_END)

/-- `reset_smoothing` (lines 197-200). -/
def reset_smoothing (cm : CursorMath) : CursorMath :=
  { cm with prev_x := none, prev_y := none }

/-! ## Bridge lemmas: the squared comparisons of the executable embedding
are equivalent to the source's real-square-root comparisons. -/

theorem dist2_nonneg (p q : Point3) : 0 ≤ dist2 p q := by
  unfold dist2
  have h1 := mul_self_nonneg (p.x - q.x)
  have h2 := mul_self_nonneg (p.y - q.y)
  linarith

theorem euclidean_distance_eq_sqrt_dist2 (p q : Point3) :
    euclidean_distance p q = Real.sqrt ((dist2 p q : ℚ) : ℝ) := by
  show Real.sqrt _ = Real.sqrt _
  congr 1
  unfold dist2
  push_cast
  ring

/-- `is_click` is true exactly when the source's
`euclidean_distance(...) < CLICK_THRESHOLD` holds. -/
theorem is_click_iff_dist (t f : Point3) :
    is_click t f = true ↔
      euclidean_distance t f < ((CLICK_THRESHOLD : ℚ) : ℝ) := by
  rw [euclidean_distance_eq_sqrt_dist2, is_click, decide_eq_true_iff]
  rw [Real.sqrt_lt' (by norm_num [CLICK_THRESHOLD])]
  rw [show (((CLICK_THRESHOLD : ℚ) : ℝ)) ^ 2 =
      ((CLICK_THRESHOLD * CLICK_THRESHOLD : ℚ) : ℝ) by push_cast; ring]
  exact_mod_cast Iff.rfl

/-! ## Hand engine (src/hand_engine.py) -/

def WRIST : Nat := 0

def THUMB_TIP : Nat := 4

def INDEX_FINGER_MCP : Nat := 5

def INDEX_FINGER_PIP : Nat := 6

def INDEX_FINGER_TIP : Nat := 8

def MIDDLE_FINGER_MCP : Nat := 9

def MIDDLE_FINGER_PIP : Nat := 10

def MIDDLE_FINGER_TIP : Nat := 12

def RING_FINGER_MCP : Nat := 13

def RING_FINGER_PIP : Nat := 14

def RING_FINGER_TIP : Nat := 16

def PINKY_MCP : Nat := 17

def PINKY_PIP : Nat := 18

def PINKY_TIP : Nat := 20

/-- `get_landmark` (lines 103-115): plain list indexing, which raises an
`IndexError` in Python when the landmark list is too short — modelled as
`none`.  No shape validation is performed. -/
def get_landmark (hand_data : HandLandmarks) (landmark_id : Nat) : Option Point3 :=
  hand_data.landmarks.get? landmark_id

/-- The `finger_tips` dictionary of `get_fingertip`; a missing key raises
`KeyError` in Python, modelled as `none`. -/
def finger_tips (finger : String) : Option Nat :=
  match finger with
  | "thumb" => some THUMB_TIP
  | "index" => some INDEX_FINGER_TIP
  | "middle" => some MIDDLE_FINGER_TIP
  | "ring" => some RING_FINGER_TIP
  | "pinky" => some PINKY_TIP
  | _ => none

/-- `get_fingertip` (lines 117-136). -/
def get_fingertip (hand_data : HandLandmarks) (finger : String) : Option Point3 := do
  let idx ← finger_tips finger.toLower
  get_landmark hand_data idx

/-- The `finger_joints` dictionary of `is_finger_curled`:
`(tip index, pip index, mcp index)` per finger. -/
def finger_joints (finger : String) : Option (Nat × Nat × Nat) :=
  match finger with
  | "index" => some (INDEX_FINGER_TIP, INDEX_FINGER_PIP, INDEX_FINGER_MCP)
  | "middle" => some (MIDDLE_FINGER_TIP, MIDDLE_FINGER_PIP, MIDDLE_FINGER_MCP)
  | "ring" => some (RING_FINGER_TIP, RING_FINGER_PIP, RING_FINGER_MCP)
  | "pinky" => some (PINKY_TIP, PINKY_PIP, PINKY_MCP)
  | _ => none

/-- The geometric core of `is_finger_curled` (lines 166-169): the source
compares `sqrt(dist2 tip mcp) < sqrt(dist2 pip mcp) * 1.2`; embedded as the
equivalent squared comparison with multiplier `1.2² = 36/25` (equivalence
proved in `is_finger_curled_pt_iff_dist`). -/
def is_finger_curled_pt (tip pip mcp : Point3) : Bool :=
  decide (dist2 tip mcp < dist2 pip mcp * (36/25))

/-- `is_finger_curled` (lines 138-169): dictionary dispatch on the finger
name, three landmark reads, then the curl comparison. -/
def is_finger_curled (hand_data : HandLandmarks) (finger : String) : Option Bool := do
  let joints ← finger_joints finger.toLower
  let tip ← hand_data.landmarks.get? joints.1
  let pip ← hand_data.landmarks.get? joints.2.1
  let mcp ← hand_data.landmarks.get? joints.2.2
  pure (is_finger_curled_pt tip pip mcp)

/-- `is_fist` (lines 171-185): `all(...)` over the four non-thumb fingers,
short-circuiting on the first finger that is not curled, exactly like the
Python generator expression. -/
def is_fist (hand_data : HandLandmarks) : Option Bool :=
  List.allM (fun finger => is_finger_curled hand_data finger)
    ["index", "middle", "ring", "pinky"]

/-- `is_finger_curled_pt` is true exactly when the source's comparison
`tip_to_mcp < pip_to_mcp * 1.2` on real square-root distances holds. -/
theorem is_finger_curled_pt_iff_dist (tip pip mcp : Point3) :
    is_finger_curled_pt tip pip mcp = true ↔
      euclidean_distance tip mcp < euclidean_distance pip mcp * ((6/5 : ℚ) : ℝ) := by
  rw [euclidean_distance_eq_sqrt_dist2, euclidean_distance_eq_sqrt_dist2,
    is_finger_curled_pt, decide_eq_true_iff]
  have h65 : ((((6:ℚ)/5 : ℚ) : ℝ)) = Real.sqrt ((36:ℝ)/25) := by
    rw [show ((36:ℝ)/25) = ((6:ℝ)/5) ^ 2 by norm_num,
      Real.sqrt_sq (by norm_num : (0:ℝ) ≤ (6:ℝ)/5)]
    norm_num
  rw [h65, ← Real.sqrt_mul (by exact_mod_cast dist2_nonneg pip mcp)]
  rw [Real.sqrt_lt_sqrt_iff (by exact_mod_cast dist2_nonneg tip mcp)]
  rw [show ((dist2 pip mcp : ℚ) : ℝ) * ((36:ℝ)/25) =
      ((dist2 pip mcp * (36/25) : ℚ) : ℝ) by push_cast; ring]
  exact_mod_cast Iff.rfl

/-! ## Gesture arbiter (src/main.py) -/

/-- One emitted side effect: the `pyautogui` calls of `_process_gestures`. -/
inductive UiAction where
  | moveTo : ℤ → ℤ → UiAction
  | clickLeft : UiAction
  | clickRight : UiAction
  | scroll : ℤ → UiAction
deriving DecidableEq, Repr

/-- The mutable state of the `KineticOS` instance (src/main.py `__init__`,
lines 74-83) together with its owned `CursorMath`. -/
structure KineticOS where
  cursor_math : CursorMath
  current_mode : String
  last_left_click_time : ℚ
  last_right_click_time : ℚ
  last_scroll_time : ℚ
  is_left_clicking : Bool
  is_right_clicking : Bool
  is_scrolling : Bool
  click_indicator : Option (String × ℤ × ℤ)
  click_indicator_time : ℚ
deriving DecidableEq, Repr

/-- Fresh state as built by `KineticOS.__init__`. -/
def initKinetic (screen_width screen_height : ℤ) : KineticOS :=
  { cursor_math := mkCursorMath screen_width screen_height
    current_mode := MODE_IDLE
    last_left_click_time := 0
    last_right_click_time := 0
    last_scroll_time := 0
    is_left_clicking := false
    is_right_clicking := false
    is_scrolling := false
    click_indicator := none
    click_indicator_time := 0 }

/-- `_check_left_click` (lines 87-91). -/
def check_left_click (hand_data : HandLandmarks) : Option Bool := do
  let thumb_tip ← get_fingertip hand_data "thumb"
  let index_tip ← get_fingertip hand_data "index"
  pure (is_click thumb_tip index_tip)

/-- `_check_right_click` (lines 93-97). -/
def check_right_click (hand_data : HandLandmarks) : Option Bool := do
  let thumb_tip ← get_fingertip hand_data "thumb"
  let middle_tip ← get_fingertip hand_data "middle"
  pure (is_click thumb_tip middle_tip)

/-- `_process_gestures` (lines 99-175).  Returns the updated state, the
Python return value (`-999` signals the fail-safe exit, otherwise the scroll
delta), and the list of `pyautogui` calls made, in order.  `none` models an
uncaught Python exception (out-of-range landmark access). -/
def process_gestures (self : KineticOS) (hand_data : HandLandmarks)
    (current_time : ℚ) : Option (KineticOS × ℤ × List UiAction) := do
  let index_tip ← get_fingertip hand_data "index"
  let (cm1, smooth_x, smooth_y) :=
    smooth_position self.cursor_math index_tip.x index_tip.y
  let self1 := { self with cursor_math := cm1 }
  let (screen_x, screen_y) := map_to_screen cm1 smooth_x smooth_y
  if is_in_failsafe_region cm1 screen_x screen_y then
    return (self1, -999, [])
  let fist ← is_fist hand_data
  if fist then
    let self2 := { self1 with current_mode := MODE_SCROLL }
    let self3 :=
      if !self2.is_scrolling then
        { self2 with is_scrolling := true,
                     cursor_math := reset_scroll_reference self2.cursor_math }
      else self2
    let wrist ← get_landmark hand_data WRIST
    let (cm2, scroll_delta) := calculate_scroll_delta self3.cursor_math wrist.y
    let self4 := { self3 with cursor_math := cm2 }
    let debounce_ok := decide (current_time - self4.last_scroll_time > SCROLL_DEBOUNCE_TIME)
    if decide (|scroll_delta| > 0) && debounce_ok then
      return ({ self4 with last_scroll_time := current_time }, scroll_delta,
              [UiAction.scroll (-scroll_delta)])
    else
      return (self4, scroll_delta, [])
  else
    let self2 := { self1 with is_scrolling := false, current_mode := MODE_ACTIVE }
    let moves := [UiAction.moveTo screen_x screen_y]
    let l ← check_left_click hand_data
    let (self3, acts1) :=
      if l && !self2.is_left_clicking then
        if current_time - self2.last_left_click_time > CLICK_DEBOUNCE_TIME then
          ({ self2 with last_left_click_time := current_time,
                        click_indicator := some ("LEFT", screen_x, screen_y),
                        click_indicator_time := current_time },
           moves ++ [UiAction.clickLeft])
        else (self2, moves)
      else (self2, moves)
    let self4 := { self3 with is_left_clicking := l }
    let r ← check_right_click hand_data
    let (self5, acts2) :=
      if r && !self4.is_right_clicking then
        if current_time - self4.last_right_click_time > CLICK_DEBOUNCE_TIME then
          ({ self4 with last_right_click_time := current_time,
                        click_indicator := some ("RIGHT", screen_x, screen_y),
                        click_indicator_time := current_time },
           acts1 ++ [UiAction.clickRight])
        else (self4, acts1)
      else (self4, acts1)
    let self6 := { self5 with is_right_clicking := r }
    return (self6, 0, acts2)

/-- Outcome of one iteration of the `run` loop. -/
inductive FrameOutcome where
  | exitFailsafe : FrameOutcome
  | nextFrame : ℤ → FrameOutcome
deriving DecidableEq, Repr

/-- Lines 231-234 of `run`: drop the click indicator 0.3 s after it was set. -/
def clear_stale_indicator (self : KineticOS) (current_time : ℚ) : KineticOS :=
  if self.click_indicator.isSome &&
      decide (current_time - self.click_indicator_time > 3/10) then
    { self with click_indicator := none }
  else self

/-- The per-frame portion of `run` (lines 203-242) that concerns the core:
gesture processing and fail-safe exit when a hand sample is present, the
IDLE reset when it is not, then indicator expiry.  HUD rendering and the
keyboard check are display-only and omitted. -/
def run_frame (self : KineticOS) (hand_data : Option HandLandmarks)
    (current_time : ℚ) : Option (KineticOS × FrameOutcome × List UiAction) :=
  match hand_data with
  | some h => do
    let (self1, result, acts) ← process_gestures self h current_time
    if result = -999 then
      return (self1, FrameOutcome.exitFailsafe, acts)
    else
      return (clear_stale_indicator self1 current_time,
              FrameOutcome.nextFrame result, acts)
  | none =>
    let self1 := { self with
      current_mode := MODE_IDLE,
      cursor_math := reset_smoothing self.cursor_math,
      is_left_clicking := false,
      is_right_clicking := false,
      is_scrolling := false }
    some (clear_stale_indicator self1 current_time, FrameOutcome.nextFrame 0, [])

/-! ## Concrete frames and states used by witnesses and counterexamples -/

/-- A fresh instance on a 1000 x 1000 screen. -/
def demoState : KineticOS := initKinetic 1000 1000

/-- The all-zero landmark point. -/
def pz : Point3 := ⟨0, 0, 0⟩

/-- A 21-landmark ACTIVE-mode sample: index finger extended (so not a fist),
index tip fixed at the active-region center, and the thumb tip either
touching the index tip (`pinch = true`, left-pinch predicate holds) or far
from it (`pinch = false`). -/
def sampleL (pinch : Bool) : HandLandmarks :=
  { landmarks :=
      [⟨1/2, 1/2, 0⟩, pz, pz, pz,
       if pinch then ⟨1/2, 1/2, 0⟩ else ⟨9/10, 1/2, 0⟩,
       ⟨1/2, 8/10, 0⟩, ⟨1/2, 65/100, 0⟩, pz, ⟨1/2, 1/2, 0⟩,
       pz, pz, pz, ⟨1/10, 1/10, 0⟩,
       pz, pz, pz, pz, pz, pz, pz, pz]
    handedness := "Right" }

/-- A 21-landmark fist sample: all four non-thumb fingertips sit on their
MCP joints (curled), index tip well outside the fail-safe region. -/
def sampleFist : HandLandmarks :=
  { landmarks :=
      [⟨1/2, 9/10, 0⟩, pz, pz, pz, ⟨1/10, 1/2, 0⟩,
       ⟨1/2, 8/10, 0⟩, ⟨1/2, 7/10, 0⟩, pz, ⟨1/2, 8/10, 0⟩,
       ⟨6/10, 8/10, 0⟩, ⟨6/10, 7/10, 0⟩, pz, ⟨6/10, 8/10, 0⟩,
       ⟨7/10, 8/10, 0⟩, ⟨7/10, 7/10, 0⟩, pz, ⟨7/10, 8/10, 0⟩,
       ⟨8/10, 8/10, 0⟩, ⟨8/10, 7/10, 0⟩, pz, ⟨8/10, 8/10, 0⟩]
    handedness := "Right" }

/-- A 21-landmark sample whose index tip maps into the fail-safe region
(screen point (16, 16) on the 1000 x 1000 demo screen). -/
def failsafeSample : HandLandmarks :=
  { landmarks :=
      [pz, pz, pz, pz, pz, pz, pz, pz, ⟨79/100, 21/100, 0⟩,
       pz, pz, pz, pz, pz, pz, pz, pz, pz, pz, pz, pz]
    handedness := "Right" }

/-- A 21-landmark sample that is simultaneously a fist and maps into the
fail-safe region: like `sampleFist` but with the whole index block moved so
the index tip lands on screen point (16, 16). -/
def sampleFistFS : HandLandmarks :=
  { landmarks :=
      [⟨1/2, 9/10, 0⟩, pz, pz, pz, ⟨1/10, 1/2, 0⟩,
       ⟨79/100, 21/100, 0⟩, ⟨79/100, 31/100, 0⟩, pz, ⟨79/100, 21/100, 0⟩,
       ⟨6/10, 8/10, 0⟩, ⟨6/10, 7/10, 0⟩, pz, ⟨6/10, 8/10, 0⟩,
       ⟨7/10, 8/10, 0⟩, ⟨7/10, 7/10, 0⟩, pz, ⟨7/10, 8/10, 0⟩,
       ⟨8/10, 8/10, 0⟩, ⟨8/10, 7/10, 0⟩, pz, ⟨8/10, 8/10, 0⟩]
    handedness := "Right" }

/-- A malformed sample with 22 landmark points (wrong count). -/
def sample22 : HandLandmarks :=
  { landmarks := (sampleL false).landmarks ++ [pz]
    handedness := "Right" }

/-- A malformed sample with only 5 landmark points. -/
def shortSample : HandLandmarks :=
  { landmarks := [pz, pz, pz, pz, pz]
    handedness := "Right" }

/-- Run `_process_gestures` over a sequence of (sample, timestamp) frames,
collecting the action list of every frame. -/
def run_gesture_seq (st : KineticOS) :
    List (HandLandmarks × ℚ) → Option (KineticOS × List (List UiAction))
  | [] => some (st, [])
  | (h, t) :: rest => do
    let (st1, _, acts) ← process_gestures st h t
    let (stN, rest_acts) ← run_gesture_seq st1 rest
    pure (stN, acts :: rest_acts)

/-- Drive a fresh instance with `sampleL` frames following the given
(left-pinch predicate, timestamp) list, and report per frame whether a left
click was emitted. -/
def left_fire_trace (frames : List (Bool × ℚ)) : Option (List Bool) :=
  (run_gesture_seq demoState
      (frames.map (fun bt => (sampleL bt.1, bt.2)))).map
    (fun res => res.2.map (fun acts => decide (UiAction.clickLeft ∈ acts)))

/-! ## Shared helper lemmas -/

/-- For the `Option` monad, `allM` succeeds with `true` exactly when the
predicate succeeds with `true` on every element. -/
theorem allM_option_eq_some_true {α : Type} (p : α → Option Bool) (l : List α) :
    List.allM p l = some true ↔ ∀ a ∈ l, p a = some true := by
  induction l with
  | nil => simp [List.allM]
  | cons a as ih =>
    cases hpa : p a with
    | none => simp [List.allM, hpa]
    | some b =>
      cases b
      · simp [List.allM, hpa]
      · simp [List.allM, hpa, ih]

/-- Clamping to an interval is idempotent. -/
theorem clamp_idem (a b x : ℚ) (hab : a ≤ b) :
    max a (min b (max a (min b x))) = max a (min b x) := by
  have h1 : a ≤ max a (min b x) := le_max_left _ _
  have h2 : max a (min b x) ≤ b := max_le hab (min_le_left _ _)
  rw [min_eq_right h2, max_eq_right h1]

/-- The clamp of `x` to `[a, b]` is at least as close to `x` as any point of
`[a, b]`. -/
theorem clamp_nearest (a b x u : ℚ) (h1 : a ≤ u) (h2 : u ≤ b) :
    |max a (min b x) - x| ≤ |u - x| := by
  rcases le_total x a with hxa | hax
  · have hxb : x ≤ b := le_trans hxa (le_trans h1 h2)
    rw [min_eq_right hxb, max_eq_left hxa,
      abs_of_nonneg (by linarith), abs_of_nonneg (by linarith)]
    linarith
  · rcases le_total b x with hbx | hxb
    · rw [min_eq_left hbx, max_eq_right (le_trans h1 h2),
        abs_of_nonpos (by linarith), abs_of_nonpos (by linarith)]
      linarith
    · rw [min_eq_right hxb, max_eq_right hax]
      simp [abs_nonneg]

/-- `clear_stale_indicator` touches only the click indicator. -/
theorem clear_stale_fields (s : KineticOS) (t : ℚ) :
    (clear_stale_indicator s t).cursor_math = s.cursor_math ∧
    (clear_stale_indicator s t).current_mode = s.current_mode ∧
    (clear_stale_indicator s t).is_left_clicking = s.is_left_clicking ∧
    (clear_stale_indicator s t).is_right_clicking = s.is_right_clicking ∧
    (clear_stale_indicator s t).is_scrolling = s.is_scrolling := by
  unfold clear_stale_indicator
  split <;> simp

/-! ## Claim theorems -/

/-- C4: `smooth_position` returns the raw values unchanged and seeds the
filter state with them on the first call after a reset; on every later call
it returns `prev + (raw - prev) / SMOOTHING_FACTOR` per axis and stores the
new smoothed value (not the raw value), mutating nothing but the filter
state and never failing (it is a total function). -/
theorem smooth_position_spec :
    (∀ (cm : CursorMath) (x y : ℚ), cm.prev_x = none ∨ cm.prev_y = none →
        smooth_position cm x y =
          ({ cm with prev_x := some x, prev_y := some y }, x, y)) ∧
    (∀ (cm : CursorMath) (px py x y : ℚ),
        cm.prev_x = some px → cm.prev_y = some py →
        smooth_position cm x y =
          ({ cm with prev_x := some (px + (x - px) / SMOOTHING_FACTOR),
                     prev_y := some (py + (y - py) / SMOOTHING_FACTOR) },
           px + (x - px) / SMOOTHING_FACTOR,
           py + (y - py) / SMOOTHING_FACTOR)) := by
  constructor
  · intro cm x y h
    unfold smooth_position
    rw [if_pos h]
  · intro cm px py x y hx hy
    unfold smooth_position
    rw [if_neg (by simp [hx, hy])]
    simp [hx, hy]

theorem smooth_position_spec_witness :
    ((mkCursorMath 1000 1000).prev_x = none ∨
        (mkCursorMath 1000 1000).prev_y = none) ∧
    smooth_position (mkCursorMath 1000 1000) (1/2) (1/4) =
      ({ mkCursorMath 1000 1000 with
          prev_x := some (1/2), prev_y := some (1/4) }, 1/2, 1/4) ∧
    smooth_position
        { mkCursorMath 1000 1000 with prev_x := some 0, prev_y := some (1/2) }
        1 1 =
      ({ mkCursorMath 1000 1000 with
          prev_x := some (0 + (1 - 0) / SMOOTHING_FACTOR),
          prev_y := some (1/2 + (1 - 1/2) / SMOOTHING_FACTOR) },
       0 + (1 - 0) / SMOOTHING_FACTOR,
       1/2 + (1 - 1/2) / SMOOTHING_FACTOR) :=
  ⟨Or.inl rfl,
   smooth_position_spec.1 (mkCursorMath 1000 1000) (1/2) (1/4) (Or.inl rfl),
   smooth_position_spec.2
     { mkCursorMath 1000 1000 with prev_x := some 0, prev_y := some (1/2) }
     0 (1/2) 1 1 rfl rfl⟩

/-- C6: `calculate_scroll_delta` stores the baseline and returns 0 on the
first call after a reset of the scroll reference; on every later call it
returns `(current_y - reference) * SCROLL_SENSITIVITY * 100` truncated to an
integer, and the reference is advanced to `current_y` on every call. -/
theorem calculate_scroll_delta_spec :
    (∀ (cm : CursorMath) (y : ℚ), cm.prev_scroll_y = none →
        calculate_scroll_delta cm y = ({ cm with prev_scroll_y := some y }, 0)) ∧
    (∀ (cm : CursorMath) (ref y : ℚ), cm.prev_scroll_y = some ref →
        calculate_scroll_delta cm y =
          ({ cm with prev_scroll_y := some y },
           truncQ ((y - ref) * SCROLL_SENSITIVITY * 100))) := by
  constructor
  · intro cm y h
    unfold calculate_scroll_delta
    rw [h]
  · intro cm ref y h
    unfold calculate_scroll_delta
    rw [h]

theorem calculate_scroll_delta_spec_witness :
    calculate_scroll_delta (mkCursorMath 1000 1000) (1/2) =
      ({ mkCursorMath 1000 1000 with prev_scroll_y := some (1/2) }, 0) ∧
    calculate_scroll_delta
        { mkCursorMath 1000 1000 with prev_scroll_y := some (1/2) } (3/5) =
      ({ mkCursorMath 1000 1000 with prev_scroll_y := some (3/5) },
       truncQ ((3/5 - 1/2) * SCROLL_SENSITIVITY * 100)) :=
  ⟨calculate_scroll_delta_spec.1 (mkCursorMath 1000 1000) (1/2) rfl,
   calculate_scroll_delta_spec.2
     { mkCursorMath 1000 1000 with prev_scroll_y := some (1/2) }
     (1/2) (3/5) rfl⟩

/-- C5: `map_to_screen` is a pure total function that clamps the input to
the active-region bounds (so points outside map like the nearest boundary
point, per axis the clamp being the closest admissible coordinate), then
rescales, mirrors x, truncates to integers and clamps to `[0, dim-1]`. -/
theorem map_to_screen_spec :
    (∀ (cm : CursorMath) (x y : ℚ),
        map_to_screen cm x y =
          map_to_screen cm
            (max ACTIVE_REGION_X_START (min ACTIVE_REGION_X_END x))
            (max ACTIVE_REGION_Y_START (min ACTIVE_REGION_Y_END y))) ∧
    (∀ (x u : ℚ), ACTIVE_REGION_X_START ≤ u → u ≤ ACTIVE_REGION_X_END →
        |max ACTIVE_REGION_X_START (min ACTIVE_REGION_X_END x) - x| ≤ |u - x|) ∧
    (∀ (y u : ℚ), ACTIVE_REGION_Y_START ≤ u → u ≤ ACTIVE_REGION_Y_END →
        |max ACTIVE_REGION_Y_START (min ACTIVE_REGION_Y_END y) - y| ≤ |u - y|) ∧
    (∀ (cm : CursorMath) (x y : ℚ),
        1 ≤ cm.screen_width → 1 ≤ cm.screen_height →
        0 ≤ (map_to_screen cm x y).1 ∧
        (map_to_screen cm x y).1 ≤ cm.screen_width - 1 ∧
        0 ≤ (map_to_screen cm x y).2 ∧
        (map_to_screen cm x y).2 ≤ cm.screen_height - 1) ∧
    (∀ (cm : CursorMath) (x y : ℚ),
        ACTIVE_REGION_X_START ≤ x → x ≤ ACTIVE_REGION_X_END →
        ACTIVE_REGION_Y_START ≤ y → y ≤ ACTIVE_REGION_Y_END →
        map_to_screen cm x y =
          (max 0 (min (cm.screen_width - 1)
             (truncQ ((1 - (x - ACTIVE_REGION_X_START) /
               (ACTIVE_REGION_X_END - ACTIVE_REGION_X_START)) *
                 (cm.screen_width : ℚ)))),
           max 0 (min (cm.screen_height - 1)
             (truncQ ((y - ACTIVE_REGION_Y_START) /
               (ACTIVE_REGION_Y_END - ACTIVE_REGION_Y_START) *
                 (cm.screen_height : ℚ)))))) := by
  have hx : ACTIVE_REGION_X_START ≤ ACTIVE_REGION_X_END := by
    norm_num [ACTIVE_REGION_X_START, ACTIVE_REGION_X_END]
  have hy : ACTIVE_REGION_Y_START ≤ ACTIVE_REGION_Y_END := by
    norm_num [ACTIVE_REGION_Y_START, ACTIVE_REGION_Y_END]
  refine ⟨?_, ?_, ?_, ?_, ?_⟩
  · intro cm x y
    simp only [map_to_screen]
    rw [clamp_idem _ _ _ hx, clamp_idem _ _ _ hy]
  · intro x u h1 h2
    exact clamp_nearest _ _ _ _ h1 h2
  · intro y u h1 h2
    exact clamp_nearest _ _ _ _ h1 h2
  · intro cm x y hw hh
    refine ⟨le_max_left _ _, max_le (by linarith) (min_le_left _ _),
      le_max_left _ _, max_le (by linarith) (min_le_left _ _)⟩
  · intro cm x y hx1 hx2 hy1 hy2
    simp only [map_to_screen]
    rw [min_eq_right hx2, max_eq_right hx1, min_eq_right hy2, max_eq_right hy1]

theorem map_to_screen_spec_witness :
    (ACTIVE_REGION_X_START ≤ ACTIVE_REGION_X_END ∧
      |max ACTIVE_REGION_X_START (min ACTIVE_REGION_X_END (19/20)) - 19/20| ≤
        |ACTIVE_REGION_X_END - 19/20|) ∧
    (1 ≤ (mkCursorMath 1000 1000).screen_width ∧
      0 ≤ (map_to_screen (mkCursorMath 1000 1000) (19/20) (1/2)).1 ∧
      (map_to_screen (mkCursorMath 1000 1000) (19/20) (1/2)).1 ≤
        (mkCursorMath 1000 1000).screen_width - 1) :=
  ⟨⟨by with_unfolding_all decide,
    map_to_screen_spec.2.1 (19/20) ACTIVE_REGION_X_END (by with_unfolding_all decide) (by with_unfolding_all decide)⟩,
   ⟨by with_unfolding_all decide,
    (map_to_screen_spec.2.2.2.1 (mkCursorMath 1000 1000) (19/20) (1/2)
        (by with_unfolding_all decide) (by with_unfolding_all decide)).1,
    (map_to_screen_spec.2.2.2.1 (mkCursorMath 1000 1000) (19/20) (1/2)
        (by with_unfolding_all decide) (by with_unfolding_all decide)).2.1⟩⟩

/-- C7: `is_fist` succeeds with `true` exactly when all four of index,
middle, ring and pinky are individually curled (thumb excluded); a single
finger reported not-curled forces `is_fist` away from `true`; and the curl
predicate itself holds exactly when the planar tip-to-MCP distance is
strictly below 1.2 times the planar PIP-to-MCP distance. -/
theorem fist_aggregation_spec :
    (∀ h : HandLandmarks,
        is_fist h = some true ↔
          (is_finger_curled h "index" = some true ∧
           is_finger_curled h "middle" = some true ∧
           is_finger_curled h "ring" = some true ∧
           is_finger_curled h "pinky" = some true)) ∧
    (∀ tip pip mcp : Point3,
        is_finger_curled_pt tip pip mcp = true ↔
          euclidean_distance tip mcp <
            euclidean_distance pip mcp * ((6/5 : ℚ) : ℝ)) ∧
    (∀ (h : HandLandmarks) (f : String),
        f ∈ ["index", "middle", "ring", "pinky"] →
        is_finger_curled h f = some false → is_fist h ≠ some true) := by
  refine ⟨?_, is_finger_curled_pt_iff_dist, ?_⟩
  · intro h
    rw [is_fist, allM_option_eq_some_true]
    simp [List.forall_mem_cons]
  · intro h f hf hfalse hcontra
    rw [is_fist, allM_option_eq_some_true] at hcontra
    have := hcontra f hf
    rw [hfalse] at this
    simp at this

theorem fist_aggregation_spec_witness :
    ("index" ∈ ["index", "middle", "ring", "pinky"] ∧
      is_finger_curled (sampleL true) "index" = some false) ∧
    is_fist (sampleL true) ≠ some true :=
  ⟨⟨by with_unfolding_all decide, by with_unfolding_all decide⟩,
   fist_aggregation_spec.2.2 (sampleL true) "index" (by with_unfolding_all decide) (by with_unfolding_all decide)⟩

/-- A state holding a live scroll reference, as left behind by a SCROLL
frame. -/
def stWithScroll : KineticOS :=
  { demoState with
      cursor_math := { demoState.cursor_math with prev_scroll_y := some (3/10) } }

/-- C2 counterexample: a frame with no hand sample does NOT reset the scroll
reference — `run` only calls `reset_smoothing` and clears the click flags,
leaving `_prev_scroll_y` untouched (it is reset on SCROLL entry instead), so
FilterState and ScrollReference are not reset together on hand loss. -/
theorem no_hand_keeps_scroll_reference :
    stWithScroll.cursor_math.prev_scroll_y = some (3/10) ∧
    (run_frame stWithScroll none 1).map
        (fun r => r.1.cursor_math.prev_scroll_y) = some (some (3/10)) := by
  constructor
  · with_unfolding_all decide
  · with_unfolding_all decide

/-- C2 amended: on every frame with no hand sample the mode is forced to
IDLE, FilterState (previous smoothed x and y) is reset to unset,
ClickEdgeState (both pinch booleans) is cleared to false, the scrolling flag
is cleared, and no action is emitted — but ScrollReference (the previous
scroll y) is left unchanged; it is reset on entry into SCROLL mode instead. -/
theorem no_hand_reset_behavior (st : KineticOS) (t : ℚ) :
    ∃ st', run_frame st none t = some (st', FrameOutcome.nextFrame 0, []) ∧
      st'.current_mode = MODE_IDLE ∧
      st'.cursor_math.prev_x = none ∧
      st'.cursor_math.prev_y = none ∧
      st'.is_left_clicking = false ∧
      st'.is_right_clicking = false ∧
      st'.is_scrolling = false ∧
      st'.cursor_math.prev_scroll_y = st.cursor_math.prev_scroll_y := by
  have h := clear_stale_fields
      { st with current_mode := MODE_IDLE,
                cursor_math := reset_smoothing st.cursor_math,
                is_left_clicking := false,
                is_right_clicking := false,
                is_scrolling := false } t
  exact ⟨_, rfl, (h.2.1).trans rfl, (congrArg CursorMath.prev_x h.1).trans rfl,
    (congrArg CursorMath.prev_y h.1).trans rfl, (h.2.2.1).trans rfl,
    (h.2.2.2.1).trans rfl, (h.2.2.2.2).trans rfl,
    (congrArg CursorMath.prev_scroll_y h.1).trans rfl⟩

/-- `calculate_scroll_delta` never touches the smoothing filter state. -/
theorem calc_scroll_keeps_prev_xy (cm : CursorMath) (y : ℚ) :
    (calculate_scroll_delta cm y).1.prev_x = cm.prev_x ∧
    (calculate_scroll_delta cm y).1.prev_y = cm.prev_y := by
  unfold calculate_scroll_delta
  cases h : cm.prev_scroll_y <;> simp

/-- The `CursorMath` state after one `smooth_position` call on a fresh
instance seeded with the fail-safe witness point. -/
def cmFS : CursorMath :=
  { mkCursorMath 1000 1000 with prev_x := some (79/100), prev_y := some (21/100) }

/-- The `CursorMath` state after one `smooth_position` call on a fresh
instance seeded with the `sampleFist` index tip. -/
def cmFist : CursorMath :=
  { mkCursorMath 1000 1000 with prev_x := some (1/2), prev_y := some (4/5) }

/-- The `CursorMath` state after one `smooth_position` call on a fresh
instance seeded with the `sampleL` index tip. -/
def cmActive : CursorMath :=
  { mkCursorMath 1000 1000 with prev_x := some (1/2), prev_y := some (1/2) }

/-- The full state produced by processing `sampleFist` on a fresh instance. -/
def scrollResultState : KineticOS :=
  { demoState with
      current_mode := MODE_SCROLL
      is_scrolling := true
      cursor_math := { cmFist with prev_scroll_y := some (9/10) } }

/-- The full state produced by processing `sampleL true` at time 1 on a
fresh instance. -/
def activeResultState : KineticOS :=
  { demoState with
      current_mode := MODE_ACTIVE
      last_left_click_time := 1
      is_left_clicking := true
      click_indicator := some ("LEFT", 500, 500)
      click_indicator_time := 1
      cursor_math := cmActive }

/-- C3: when the smoothed, screen-mapped index-tip position lies inside the
fail-safe rectangle, `_process_gestures` returns the exit sentinel with an
empty action list — no click, move or scroll is emitted — before the fist
predicate is even consulted, and the `run` loop turns this into the
terminal exit outcome. -/
theorem failsafe_blocks_actions (st : KineticOS) (h : HandLandmarks) (t : ℚ)
    (ip : Point3) (cm1 : CursorMath) (sx sy : ℚ) (scx scy : ℤ)
    (hip : get_fingertip h "index" = some ip)
    (hsm : smooth_position st.cursor_math ip.x ip.y = (cm1, sx, sy))
    (hmap : map_to_screen cm1 sx sy = (scx, scy))
    (hsafe : is_in_failsafe_region cm1 scx scy = true) :
    process_gestures st h t = some ({ st with cursor_math := cm1 }, -999, []) ∧
    run_frame st (some h) t =
      some ({ st with cursor_math := cm1 }, FrameOutcome.exitFailsafe, []) := by
  have hpg : process_gestures st h t =
      some ({ st with cursor_math := cm1 }, -999, []) := by
    simp only [process_gestures, hip, bind, Option.bind, hsm, hmap, hsafe,
      if_true, pure]
  refine ⟨hpg, ?_⟩
  simp [run_frame, hpg, bind, Option.bind]

theorem failsafe_blocks_actions_witness :
    process_gestures demoState failsafeSample 1 =
      some ({ demoState with cursor_math := cmFS }, -999, []) ∧
    run_frame demoState (some failsafeSample) 1 =
      some ({ demoState with cursor_math := cmFS },
            FrameOutcome.exitFailsafe, []) :=
  failsafe_blocks_actions demoState failsafeSample 1 ⟨79/100, 21/100, 0⟩ cmFS
    (79/100) (21/100) 16 16
    (by with_unfolding_all decide) (by with_unfolding_all decide)
    (by with_unfolding_all decide) (by with_unfolding_all decide)

/-- C10: the fail-safe test is evaluated on the smoothed, mapped index-tip
position before the fist predicate, so the exit fires even on a frame whose
hand is a fist (no fist hypothesis is needed for the exit); and on every
hand frame, whatever branch is taken, the resulting filter state carries
the values advanced by the `smooth_position` call made before any mode
decision. -/
theorem failsafe_precedes_fist (st : KineticOS) (h : HandLandmarks) (t : ℚ)
    (ip : Point3) (cm1 : CursorMath) (sx sy : ℚ) (scx scy : ℤ)
    (hip : get_fingertip h "index" = some ip)
    (hsm : smooth_position st.cursor_math ip.x ip.y = (cm1, sx, sy))
    (hmap : map_to_screen cm1 sx sy = (scx, scy)) :
    (is_in_failsafe_region cm1 scx scy = true →
      process_gestures st h t = some ({ st with cursor_math := cm1 }, -999, [])) ∧
    (∀ st' ret acts, process_gestures st h t = some (st', ret, acts) →
      st'.cursor_math.prev_x = cm1.prev_x ∧
      st'.cursor_math.prev_y = cm1.prev_y) := by
  constructor
  · intro hsafe
    simp only [process_gestures, hip, bind, Option.bind, hsm, hmap, hsafe,
      if_true, pure]
  · intro st' ret acts hproc
    simp only [process_gestures, hip, bind, Option.bind, hsm, hmap] at hproc
    cases hsafe : is_in_failsafe_region cm1 scx scy with
    | true =>
      rw [hsafe] at hproc
      simp only [if_true, pure] at hproc
      simp only [Option.some.injEq, Prod.mk.injEq] at hproc
      obtain ⟨h1, -, -⟩ := hproc
      subst h1
      exact ⟨rfl, rfl⟩
    | false =>
      rw [hsafe] at hproc
      simp only [Bool.false_eq_true, if_false] at hproc
      cases hf : is_fist h with
      | none => rw [hf] at hproc; simp at hproc
      | some fist =>
        rw [hf] at hproc
        simp only [Option.some_bind] at hproc
        cases fist with
        | true =>
          simp only [if_true] at hproc
          cases hw : get_landmark h WRIST with
          | none => rw [hw] at hproc; simp at hproc
          | some w =>
            rw [hw] at hproc
            simp only [Option.some_bind, pure] at hproc
            split_ifs at hproc <;>
            · simp only [Option.some.injEq, Prod.mk.injEq] at hproc
              obtain ⟨h1, -, -⟩ := hproc
              subst h1
              constructor <;>
                simp [calc_scroll_keeps_prev_xy, reset_scroll_reference]
        | false =>
          simp only [Bool.false_eq_true, if_false] at hproc
          cases hl : check_left_click h with
          | none => rw [hl] at hproc; simp at hproc
          | some l =>
            rw [hl] at hproc
            simp only [Option.some_bind] at hproc
            cases hr : check_right_click h with
            | none => rw [hr] at hproc; simp at hproc
            | some r =>
              rw [hr] at hproc
              simp only [Option.some_bind, pure] at hproc
              split_ifs at hproc <;>
              · simp only [Option.some.injEq, Prod.mk.injEq] at hproc
                obtain ⟨h1, -, -⟩ := hproc
                subst h1
                exact ⟨rfl, rfl⟩

theorem failsafe_precedes_fist_witness :
    (is_fist sampleFistFS = some true ∧
      process_gestures demoState sampleFistFS 1 =
        some ({ demoState with cursor_math := cmFS }, -999, [])) ∧
    (process_gestures demoState sampleFist 1 = some (scrollResultState, 0, []) ∧
      scrollResultState.cursor_math.prev_x = cmFist.prev_x ∧
      scrollResultState.cursor_math.prev_y = cmFist.prev_y) :=
  ⟨⟨by with_unfolding_all decide,
    (failsafe_precedes_fist demoState sampleFistFS 1 ⟨79/100, 21/100, 0⟩ cmFS
        (79/100) (21/100) 16 16
        (by with_unfolding_all decide) (by with_unfolding_all decide)
        (by with_unfolding_all decide)).1 (by with_unfolding_all decide)⟩,
   ⟨by with_unfolding_all decide,
    (failsafe_precedes_fist demoState sampleFist 1 ⟨1/2, 4/5, 0⟩ cmFist
        (1/2) (4/5) 500 999
        (by with_unfolding_all decide) (by with_unfolding_all decide)
        (by with_unfolding_all decide)).2 scrollResultState 0 []
      (by with_unfolding_all decide)⟩⟩

/-- C8: on every frame whose hand is classified as a fist, `_process_gestures`
leaves the click edge state (both previous-pinch booleans) and the click
debounce timestamps untouched — neither updated nor cleared — and, whenever
the frame is not a fail-safe exit, sets the mode to SCROLL. -/
theorem scroll_freezes_click_edges (st : KineticOS) (h : HandLandmarks) (t : ℚ)
    (ip : Point3) (cm1 : CursorMath) (sx sy : ℚ) (scx scy : ℤ)
    (st' : KineticOS) (ret : ℤ) (acts : List UiAction)
    (hip : get_fingertip h "index" = some ip)
    (hsm : smooth_position st.cursor_math ip.x ip.y = (cm1, sx, sy))
    (hmap : map_to_screen cm1 sx sy = (scx, scy))
    (hfist : is_fist h = some true)
    (hproc : process_gestures st h t = some (st', ret, acts)) :
    st'.is_left_clicking = st.is_left_clicking ∧
    st'.is_right_clicking = st.is_right_clicking ∧
    st'.last_left_click_time = st.last_left_click_time ∧
    st'.last_right_click_time = st.last_right_click_time ∧
    (is_in_failsafe_region cm1 scx scy = false →
      st'.current_mode = MODE_SCROLL) := by
  simp only [process_gestures, hip, bind, Option.bind, hsm, hmap, hfist] at hproc
  cases hsafe : is_in_failsafe_region cm1 scx scy with
  | true =>
    rw [hsafe] at hproc
    simp only [if_true, pure, Option.some.injEq, Prod.mk.injEq] at hproc
    obtain ⟨h1, -, -⟩ := hproc
    subst h1
    simp [hsafe]
  | false =>
    rw [hsafe] at hproc
    simp only [Bool.false_eq_true, if_false, if_true, Option.some_bind] at hproc
    cases hw : get_landmark h WRIST with
    | none => rw [hw] at hproc; simp at hproc
    | some w =>
      rw [hw] at hproc
      simp only [Option.some_bind, pure] at hproc
      split_ifs at hproc <;>
      · simp only [Option.some.injEq, Prod.mk.injEq] at hproc
        obtain ⟨h1, -, -⟩ := hproc
        subst h1
        simp [calculate_scroll_delta]

theorem scroll_freezes_click_edges_witness :
    process_gestures demoState sampleFist 1 = some (scrollResultState, 0, []) ∧
    scrollResultState.is_left_clicking = demoState.is_left_clicking ∧
    scrollResultState.is_right_clicking = demoState.is_right_clicking ∧
    scrollResultState.current_mode = MODE_SCROLL := by
  have hcore := scroll_freezes_click_edges demoState sampleFist 1 ⟨1/2, 4/5, 0⟩
    cmFist (1/2) (4/5) 500 999 scrollResultState 0 []
    (by with_unfolding_all decide) (by with_unfolding_all decide)
    (by with_unfolding_all decide) (by with_unfolding_all decide)
    (by with_unfolding_all decide)
  exact ⟨by with_unfolding_all decide, hcore.1, hcore.2.1,
    hcore.2.2.2.2 (by with_unfolding_all decide)⟩

/-- C1: in a non-fist, non-fail-safe (ACTIVE) frame, a click action of
either kind is emitted exactly when its pinch predicate is newly true this
frame (rising edge against the previous frame's edge state) AND the time
since that click kind's last fire exceeds the click debounce interval; the
edge state is updated to the current predicate value whether or not a fire
occurred, the cursor move is always emitted, and the return value is 0.
In particular, driving a fresh instance with the left-pinch predicate
sequence [false, true, true, false, true] with all gaps exceeding the
debounce interval fires exactly at indices 1 and 4, and a rapid
true, true, true within the debounce window fires only once. -/
theorem click_edge_debounce_spec :
    (∀ (st : KineticOS) (h : HandLandmarks) (t : ℚ) (l r : Bool) (ip : Point3)
        (cm1 : CursorMath) (sx sy : ℚ) (scx scy : ℤ) (st' : KineticOS)
        (ret : ℤ) (acts : List UiAction),
        get_fingertip h "index" = some ip →
        smooth_position st.cursor_math ip.x ip.y = (cm1, sx, sy) →
        map_to_screen cm1 sx sy = (scx, scy) →
        is_in_failsafe_region cm1 scx scy = false →
        is_fist h = some false →
        check_left_click h = some l →
        check_right_click h = some r →
        process_gestures st h t = some (st', ret, acts) →
        ret = 0 ∧
        (UiAction.clickLeft ∈ acts ↔
          (l = true ∧ st.is_left_clicking = false ∧
            t - st.last_left_click_time > CLICK_DEBOUNCE_TIME)) ∧
        (UiAction.clickRight ∈ acts ↔
          (r = true ∧ st.is_right_clicking = false ∧
            t - st.last_right_click_time > CLICK_DEBOUNCE_TIME)) ∧
        st'.is_left_clicking = l ∧ st'.is_right_clicking = r ∧
        st'.current_mode = MODE_ACTIVE ∧ UiAction.moveTo scx scy ∈ acts) ∧
    left_fire_trace [(false, 1), (true, 2), (true, 3), (false, 4), (true, 5)] =
      some [false, true, false, false, true] ∧
    left_fire_trace [(true, 1), (true, 11/10), (true, 6/5)] =
      some [true, false, false] := by
  refine ⟨?_, by with_unfolding_all decide, by with_unfolding_all decide⟩
  intro st h t l r ip cm1 sx sy scx scy st' ret acts
    hip hsm hmap hsafe hfist hl hr hproc
  simp only [process_gestures, hip, bind, Option.bind, hsm, hmap, hsafe,
    Bool.false_eq_true, if_false, hfist, Option.some_bind, hl, hr, pure] at hproc
  split_ifs at hproc <;>
  · simp only [Option.some.injEq, Prod.mk.injEq] at hproc
    obtain ⟨h1, h2, h3⟩ := hproc
    subst h1
    subst h2
    subst h3
    simp_all

theorem click_edge_debounce_spec_witness :
    process_gestures demoState (sampleL true) 1 =
      some (activeResultState, 0,
        [UiAction.moveTo 500 500, UiAction.clickLeft]) ∧
    (UiAction.clickLeft ∈ [UiAction.moveTo 500 500, UiAction.clickLeft] ↔
      (true = true ∧ demoState.is_left_clicking = false ∧
        (1 : ℚ) - demoState.last_left_click_time > CLICK_DEBOUNCE_TIME)) ∧
    activeResultState.is_left_clicking = true := by
  have hcore := click_edge_debounce_spec.1 demoState (sampleL true) 1 true false
    ⟨1/2, 1/2, 0⟩ cmActive (1/2) (1/2) 500 500 activeResultState 0
    [UiAction.moveTo 500 500, UiAction.clickLeft]
    (by with_unfolding_all decide) (by with_unfolding_all decide)
    (by with_unfolding_all decide) (by with_unfolding_all decide)
    (by with_unfolding_all decide) (by with_unfolding_all decide)
    (by with_unfolding_all decide) (by with_unfolding_all decide)
  exact ⟨by with_unfolding_all decide, hcore.2.1, hcore.2.2.2.1⟩

/-- C9: the core never validates the landmark-count of a sample before
using it: a malformed sample with 22 points (wrong count) is processed
without any complaint, while a 5-point sample makes the landmark read fail
with a bare out-of-range indexing failure (an uncaught `IndexError` in the
source, modelled as `none`) rather than a descriptive validation error. -/
theorem malformed_sample_not_validated :
    sample22.landmarks.length = 22 ∧
    (process_gestures demoState sample22 1).isSome = true ∧
    shortSample.landmarks.length = 5 ∧
    get_fingertip shortSample "index" = none ∧
    process_gestures demoState shortSample 1 = none := by
  refine ⟨?_, ?_, ?_, ?_, ?_⟩ <;> with_unfolding_all decide
